import Mathlib

/-!
Shallow embedding of the analytics/alerting core of the Crowd_Detec repository
(`crowd_analyzer.py` and `alert_manager.py`).

Modelling conventions:
* Python floats are modelled by `ℚ` (and by `ℝ` where the source takes square
  roots); timestamps are `ℚ`.
* The string-valued crowd levels `'low'/'medium'/'high'/'critical'`, alert
  kinds (dict keys of `last_alert_time`) and alert types
  `'threshold'/'anomaly'/'none'` are modelled by inductive types; the
  constructors carry the same names as the source strings.
* `AlertManager.last_alert_time` (a Python dict) is modelled as a total
  function `AlertKind → Option ℚ`, `none` meaning "key absent".
* Side-effect channels (console, email, sound, image saving) and the textual
  `message` / `actions_taken` fields of alert dicts are not modelled: no claim
  depends on them.  The persisted log record payload is abstracted to its
  timestamp; only the presence of a record matters for the logging claims.
-/

/-- Crowd level returned by `CrowdAnalyzer.classify_crowd_level`
(source strings `'low'`, `'medium'`, `'high'`, `'critical'`). -/
inductive CrowdLevel
  | low
  | medium
  | high
  | critical
deriving DecidableEq

/-- Severity order of crowd levels: low < medium < high < critical. -/
def levelRank : CrowdLevel → ℕ
  | .low => 0
  | .medium => 1
  | .high => 2
  | .critical => 3

/-- `alert_thresholds` configuration: `{'low': .., 'medium': .., 'high': ..}`. -/
structure Thresholds where
  low : ℚ
  medium : ℚ
  high : ℚ

/-- `CrowdAnalyzer.classify_crowd_level` (crowd_analyzer.py lines 331-350):
`count < low → 'low'`, `elif count < medium → 'medium'`,
`elif count < high → 'high'`, `else 'critical'`. -/
def classify_crowd_level (t : Thresholds) (person_count : ℚ) : CrowdLevel :=
  if person_count < t.low then .low
  else if person_count < t.medium then .medium
  else if person_count < t.high then .high
  else .critical

/-- The smoothed state `{smoothed_count, smoothed_density}` of `CrowdAnalyzer`. -/
structure SmoothedState where
  smoothed_count : ℚ
  smoothed_density : ℚ
deriving DecidableEq

/-- Initial smoothed state: both fields are initialized to `0.0` in
`CrowdAnalyzer.__init__`. -/
def initSmoothed : SmoothedState := ⟨0, 0⟩

/-- `CrowdAnalyzer._update_smoothed_values` (crowd_analyzer.py lines 456-466):
if `self.smoothed_count == 0` both smoothed values are overwritten with the
raw inputs, otherwise the exponential moving average
`alpha * current + (1 - alpha) * smoothed` is applied to each field. -/
def update_smoothed_values (alpha : ℚ) (st : SmoothedState)
    (current_count current_density : ℚ) : SmoothedState :=
  if st.smoothed_count = 0 then
    ⟨current_count, current_density⟩
  else
    ⟨alpha * current_count + (1 - alpha) * st.smoothed_count,
     alpha * current_density + (1 - alpha) * st.smoothed_density⟩

/-- The anomaly-flag dict returned by `CrowdAnalyzer.detect_anomalies`. -/
structure Anomalies where
  count_anomaly : Bool
  density_anomaly : Bool
  sudden_change : Bool
deriving DecidableEq

/-- Mean of a list of rationals (`np.mean`; division by zero yields 0 for the
empty list, which the source never hits on the paths modelled here). -/
def listMean (l : List ℚ) : ℚ := l.sum / l.length

/-- Population variance of a list of rationals (square of `np.std`). -/
def listVariance (l : List ℚ) : ℚ :=
  (l.map (fun x => (x - listMean l) ^ 2)).sum / l.length

/-- The most recent `n` elements of a list (`list(history)[-n:]`). -/
def lastN (n : ℕ) (l : List ℚ) : List ℚ := l.drop (l.length - n)

/-- `CrowdAnalyzer.detect_anomalies` (crowd_analyzer.py lines 406-454).
The deques `count_history` / `density_history` are passed explicitly, most
recent element last.  All flags are false when fewer than 20 counts are in
history.  The z-score tests `|current - mean| / std > 2` (guarded by
`std > 0`) are expressed squared — `(current - mean)² > 4·variance` — which is
equivalent over the reals and keeps the embedding inside `ℚ`.
`sudden_change` compares `|current_count - count_history[-2]|` against
`max(10, count_mean * 0.3)`. -/
def detect_anomalies (count_history density_history : List ℚ)
    (current_count current_density : ℚ) : Anomalies :=
  if count_history.length < 20 then ⟨false, false, false⟩
  else
    let recent_counts := lastN 20 count_history
    let recent_densities := lastN 20 density_history
    let count_mean := listMean recent_counts
    let count_var := listVariance recent_counts
    let density_mean := listMean recent_densities
    let density_var := listVariance recent_densities
    let count_anomaly :=
      decide (0 < count_var) && decide (4 * count_var < (current_count - count_mean) ^ 2)
    let density_anomaly :=
      decide (0 < density_var) && decide (4 * density_var < (current_density - density_mean) ^ 2)
    let prev_count := count_history.getD (count_history.length - 2) 0
    let sudden_change :=
      decide (1 < count_history.length) &&
        decide (max 10 (count_mean * (3 / 10)) < |current_count - prev_count|)
    ⟨count_anomaly, density_anomaly, sudden_change⟩

/-- The default `alert_thresholds` configuration
`{'low': 20, 'medium': 50, 'high': 100}`. -/
def defaultThresholds : Thresholds := ⟨20, 50, 100⟩

/-- The all-false anomaly dict. -/
def noAnomalies : Anomalies := ⟨false, false, false⟩

/-- An anomaly dict with exactly the `count_anomaly` flag set. -/
def countAnomalyOnly : Anomalies := ⟨true, false, false⟩

/-- Keys of the `AlertManager.last_alert_time` dict: a crowd-level name used
as a threshold-alert kind, or the string `'anomaly'`. -/
inductive AlertKind
  | lvl (l : CrowdLevel)
  | anomaly
deriving DecidableEq

/-- Values taken by the `alert_level` field of an alert-info dict:
`'none'`, a crowd-level name, or `'anomaly'`. -/
inductive AlertLevel
  | none
  | lvl (l : CrowdLevel)
  | anomaly
deriving DecidableEq

/-- Values taken by the `alert_type` field: `'threshold'`, `'anomaly'`, `'none'`. -/
inductive AlertType
  | threshold
  | anomaly
  | none
deriving DecidableEq

/-- The alert-info dict returned by `AlertManager.check_alerts` (the textual
`message` and `actions_taken` fields are not modelled). -/
structure AlertInfo where
  alert_triggered : Bool
  alert_level : AlertLevel
  alert_type : AlertType
deriving DecidableEq

/-- Mutable state of `AlertManager` relevant to alert evaluation. -/
structure AlertState where
  current_alert_level : AlertLevel
  last_alert_time : AlertKind → Option ℚ

/-- Fresh `AlertManager` state: `current_alert_level = 'none'`,
`last_alert_time = {}`. -/
def initAlertState : AlertState := ⟨.none, fun _ => Option.none⟩

/-- Pointwise update of the `last_alert_time` dict. -/
def updKey (f : AlertKind → Option ℚ) (k : AlertKind) (v : Option ℚ) :
    AlertKind → Option ℚ :=
  fun k' => if k' = k then v else f k'

/-- `AlertManager._check_alert_cooldown` (alert_manager.py lines 199-205):
true when the kind has never alerted, or when
`current_time - last_alert_time[kind] >= alert_cooldown`. -/
def check_alert_cooldown (alert_cooldown : ℚ) (st : AlertState)
    (kind : AlertKind) (current_time : ℚ) : Bool :=
  match st.last_alert_time kind with
  | Option.none => true
  | Option.some t => decide (alert_cooldown ≤ current_time - t)

/-- `AlertManager._check_threshold_alerts` (alert_manager.py lines 152-175):
if the crowd level is `'high'` or `'critical'` and that level's cooldown has
elapsed, trigger and stamp `last_alert_time[level] = current_time`.
Returns the alert-info dict together with the updated state. -/
def check_threshold_alerts (alert_cooldown : ℚ) (st : AlertState)
    (crowd_level : CrowdLevel) (current_time : ℚ) : AlertInfo × AlertState :=
  if crowd_level = .high ∨ crowd_level = .critical then
    if check_alert_cooldown alert_cooldown st (.lvl crowd_level) current_time then
      (⟨true, .lvl crowd_level, .threshold⟩,
       { st with last_alert_time :=
           updKey st.last_alert_time (.lvl crowd_level) (Option.some current_time) })
    else
      (⟨false, .none, .threshold⟩, st)
  else
    (⟨false, .none, .threshold⟩, st)

/-- At least one anomaly flag set (`detected_anomalies` nonempty). -/
def anyAnomaly (a : Anomalies) : Bool :=
  a.count_anomaly || a.density_anomaly || a.sudden_change

/-- `AlertManager._check_anomaly_alerts` (alert_manager.py lines 177-197):
if any anomaly flag is set and the `'anomaly'` cooldown has elapsed, trigger
and stamp `last_alert_time['anomaly'] = current_time`.  The returned dict
carries `alert_level = 'anomaly'` whether or not it triggered, as in the
source. -/
def check_anomaly_alerts (alert_cooldown : ℚ) (st : AlertState)
    (anomalies : Anomalies) (current_time : ℚ) : AlertInfo × AlertState :=
  if anyAnomaly anomalies && check_alert_cooldown alert_cooldown st .anomaly current_time then
    (⟨true, .anomaly, .anomaly⟩,
     { st with last_alert_time :=
         updKey st.last_alert_time .anomaly (Option.some current_time) })
  else
    (⟨false, .anomaly, .anomaly⟩, st)

/-- `AlertManager.check_alerts` (alert_manager.py lines 105-150): run the
threshold check, then the anomaly check (both mutate `last_alert_time`
sequentially); if either triggered, report the threshold info when it
triggered, otherwise the anomaly info; finally set `current_alert_level`
from the reported info. -/
def check_alerts (alert_cooldown : ℚ) (st : AlertState)
    (crowd_level : CrowdLevel) (anomalies : Anomalies) (current_time : ℚ) :
    AlertInfo × AlertState :=
  let ta := check_threshold_alerts alert_cooldown st crowd_level current_time
  let aa := check_anomaly_alerts alert_cooldown ta.2 anomalies current_time
  let info :=
    if ta.1.alert_triggered then ta.1
    else if aa.1.alert_triggered then aa.1
    else ⟨false, .none, .none⟩
  (info, { aa.2 with current_alert_level := info.alert_level })

/-- State of the rate-limited logger in `AlertManager`: `last_log_time`
(initially 0) and the sequence of persisted records, abstracted to their
timestamps (the record payload is irrelevant to the temporal claims). -/
structure LogState where
  last_log_time : ℚ
  records : List ℚ
deriving DecidableEq

/-- Fresh logger state: `last_log_time = 0`, empty log artifact. -/
def initLogState : LogState := ⟨0, []⟩

/-- `AlertManager.log_data` (alert_manager.py lines 343-366): no-op when
logging is disabled or `current_time - last_log_time < log_interval`;
otherwise set `last_log_time = current_time` and append one record (the
write is assumed to succeed, matching the claims' premise). -/
def log_data (log_enabled : Bool) (log_interval : ℚ) (st : LogState)
    (current_time : ℚ) : LogState :=
  if !log_enabled then st
  else if current_time - st.last_log_time < log_interval then st
  else ⟨current_time, st.records ++ [current_time]⟩

/-- A detection bounding box `[x1, y1, x2, y2]` in pixel coordinates. -/
structure Box where
  x1 : ℤ
  y1 : ℤ
  x2 : ℤ
  y2 : ℤ
deriving DecidableEq

/-- The `density_calculation` configuration value
(`'bbox_coverage'` or `'spatial_distribution'`; any other string falls back
to `'bbox_coverage'` in the source, so two constructors suffice). -/
inductive DensityMethod
  | bbox_coverage
  | spatial_distribution
deriving DecidableEq

/-- Clamp a coordinate into `[0, limit-1]`:
`max(0, min(v, limit - 1))` from `_calculate_bbox_coverage_density`. -/
def clampCoord (v : ℤ) (limit : ℕ) : ℤ := max 0 (min v ((limit : ℤ) - 1))

/-- The set of mask pixels `(row, col)` a box switches on in
`_calculate_bbox_coverage_density`: after clamping, `mask[y1:y2, x1:x2] = 1`,
i.e. rows `[y1, y2)` times columns `[x1, x2)` (the source's
`if x2 > x1 and y2 > y1` guard is implied: the product is empty otherwise). -/
def boxPixels (frame_width frame_height : ℕ) (b : Box) : Finset (ℤ × ℤ) :=
  Finset.Ico (clampCoord b.y1 frame_height) (clampCoord b.y2 frame_height) ×ˢ
    Finset.Ico (clampCoord b.x1 frame_width) (clampCoord b.x2 frame_width)

/-- `covered_area = np.sum(mask)`: the number of pixels switched on by at
least one box (overlaps counted once, as with the shared mask). -/
def coveredArea (frame_width frame_height : ℕ) (boxes : List Box) : ℕ :=
  (boxes.foldr (fun b acc => boxPixels frame_width frame_height b ∪ acc) ∅).card

/-- `CrowdAnalyzer._calculate_bbox_coverage_density`
(crowd_analyzer.py lines 139-164): `min(covered_area / total_area, 1.0)`,
with `0.0` for an empty box list. -/
def bbox_coverage_density (frame_width frame_height : ℕ) (boxes : List Box) : ℚ :=
  if boxes = [] then 0
  else
    min ((coveredArea frame_width frame_height boxes : ℚ) /
      ((frame_width : ℚ) * (frame_height : ℚ))) 1

/-- Center `((x1+x2)/2, (y1+y2)/2)` of a bounding box. -/
def boxCenter (b : Box) : ℚ × ℚ :=
  (((b.x1 : ℚ) + (b.x2 : ℚ)) / 2, ((b.y1 : ℚ) + (b.y2 : ℚ)) / 2)

/-- Minimum of a list of reals (`np.min`); 0 on the empty list, which the
source never hits (each row of the distance matrix has an off-diagonal
entry whenever there are at least two centers). -/
noncomputable def listMinR : List ℝ → ℝ
  | [] => 0
  | x :: xs => xs.foldl min x

/-- Euclidean distance between two rational points, as a real
(`scipy.spatial.distance.cdist` default metric). -/
noncomputable def euclidDist (p q : ℚ × ℚ) : ℝ :=
  Real.sqrt (((p.1 - q.1 : ℚ) : ℝ) ^ 2 + ((p.2 - q.2 : ℚ) : ℝ) ^ 2)

/-- `CrowdAnalyzer._calculate_spatial_distribution_density`
(crowd_analyzer.py lines 166-195): for fewer than two boxes, `len/100`;
otherwise average each center's nearest-neighbour distance (the diagonal of
the distance matrix is masked with `inf`, i.e. excluded), normalize by the
frame diagonal and return `1 - min(normalized, 1)`. -/
noncomputable def spatial_distribution_density (frame_width frame_height : ℕ)
    (boxes : List Box) : ℝ :=
  if boxes.length < 2 then (boxes.length : ℝ) / 100
  else
    let centers := boxes.map boxCenter
    let n := centers.length
    let nnOf : ℕ → ℝ := fun i =>
      listMinR (((List.range n).filter (fun j => j ≠ i)).map
        (fun j => euclidDist (centers.getD i (0, 0)) (centers.getD j (0, 0))))
    let avg_min_distance := (((List.range n).map nnOf).sum) / n
    let frame_diagonal := Real.sqrt ((frame_width : ℝ) ^ 2 + (frame_height : ℝ) ^ 2)
    1 - min (avg_min_distance / frame_diagonal) 1

/-- `CrowdAnalyzer.calculate_density_score` (crowd_analyzer.py lines 119-137):
`0.0` when the box list is empty or a frame dimension is unknown (`None` and
`0` are both falsy in the source guard, modelled here as the dimension being
`0`); otherwise dispatch on the configured density method. -/
noncomputable def calculate_density_score (method : DensityMethod)
    (frame_width frame_height : ℕ) (boxes : List Box) : ℝ :=
  if boxes = [] ∨ frame_width = 0 ∨ frame_height = 0 then 0
  else
    match method with
    | .bbox_coverage => ((bbox_coverage_density frame_width frame_height boxes : ℚ) : ℝ)
    | .spatial_distribution => spatial_distribution_density frame_width frame_height boxes

/-- Truncation toward zero, the semantics of Python's `int()` conversion on
a (possibly negative) quotient. -/
def truncQ (q : ℚ) : ℤ := if 0 ≤ q then ⌊q⌋ else ⌈q⌉

/-- The grid cell `(grid_y, grid_x)` a box's center falls into in
`CrowdAnalyzer.generate_density_heatmap`: divide the center by the cell
size (`frame / grid`), truncate, then clamp into `[0, grid-1]`. -/
def cellOf (frame_width frame_height grid_w grid_h : ℕ) (b : Box) : ℤ × ℤ :=
  let c := boxCenter b
  let grid_x := truncQ (c.1 / ((frame_width : ℚ) / (grid_w : ℚ)))
  let grid_y := truncQ (c.2 / ((frame_height : ℚ) / (grid_h : ℚ)))
  (max 0 (min grid_y ((grid_h : ℤ) - 1)), max 0 (min grid_x ((grid_w : ℤ) - 1)))

/-- The pre-normalization heatmap: cell `(grid_y, grid_x)` holds the number
of boxes whose (clamped) center cell is that cell — the denotation of the
`heatmap[grid_y, grid_x] += 1` loop. -/
def heatRaw (frame_width frame_height grid_w grid_h : ℕ) (boxes : List Box) :
    ℤ × ℤ → ℕ :=
  fun rc => (boxes.map (cellOf frame_width frame_height grid_w grid_h)).count rc

/-- The index set of the `grid_h × grid_w` heatmap array. -/
def gridCells (grid_w grid_h : ℕ) : Finset (ℤ × ℤ) :=
  Finset.Ico 0 (grid_h : ℤ) ×ˢ Finset.Ico 0 (grid_w : ℤ)

/-- `np.max(heatmap)` over the grid. -/
def maxRaw (frame_width frame_height grid_w grid_h : ℕ) (boxes : List Box) : ℕ :=
  (gridCells grid_w grid_h).sup (heatRaw frame_width frame_height grid_w grid_h boxes)

/-- `CrowdAnalyzer.generate_density_heatmap` (crowd_analyzer.py lines
197-240): all-zero grid when the frame dimensions are unknown or the box
list is empty; otherwise count box centers per cell and divide the grid by
its maximum when that maximum is positive. -/
def generate_density_heatmap (frame_width frame_height grid_w grid_h : ℕ)
    (boxes : List Box) : ℤ × ℤ → ℚ :=
  if frame_width = 0 ∨ frame_height = 0 then fun _ => 0
  else if boxes = [] then fun _ => 0
  else fun rc =>
    let m := maxRaw frame_width frame_height grid_w grid_h boxes
    if 0 < m then (heatRaw frame_width frame_height grid_w grid_h boxes rc : ℚ) / m
    else (heatRaw frame_width frame_height grid_w grid_h boxes rc : ℚ)

/-! ## Theorems -/

/-- C7: for every current count and density, if the count history holds fewer
than 20 samples then `detect_anomalies` returns all three flags false, no
matter how extreme the current inputs are. -/
theorem detect_anomalies_short_history_all_false
    (count_history density_history : List ℚ) (current_count current_density : ℚ)
    (h : count_history.length < 20) :
    detect_anomalies count_history density_history current_count current_density =
      ⟨false, false, false⟩ := by
  simp [detect_anomalies, h]

theorem detect_anomalies_short_history_all_false_witness :
    (List.replicate 19 (0 : ℚ)).length < 20 ∧
    detect_anomalies (List.replicate 19 (0 : ℚ)) (List.replicate 19 (0 : ℚ))
      1000000 1000000 = ⟨false, false, false⟩ :=
  ⟨by decide,
   detect_anomalies_short_history_all_false _ _ _ _ (by decide)⟩

/-- C10: two `log_data` calls whose timestamps differ by strictly less than
the log interval (logging enabled, the first call due) produce exactly one
persisted record: the first call appends one record and updates
`last_log_time`, and the second call is a no-op. -/
theorem log_data_rate_limit (log_interval t1 t2 : ℚ) (st : LogState)
    (hdue : log_interval ≤ t1 - st.last_log_time)
    (hclose : |t2 - t1| < log_interval) :
    (log_data true log_interval st t1).records = st.records ++ [t1] ∧
    (log_data true log_interval st t1).last_log_time = t1 ∧
    log_data true log_interval (log_data true log_interval st t1) t2 =
      log_data true log_interval st t1 ∧
    (log_data true log_interval (log_data true log_interval st t1) t2).records.length =
      st.records.length + 1 := by
  have h1 : ¬ (t1 - st.last_log_time < log_interval) := not_lt.mpr hdue
  have h2 : t2 - t1 < log_interval := lt_of_le_of_lt (le_abs_self _) hclose
  simp [log_data, h1, h2]

theorem log_data_rate_limit_witness :
    (5 : ℚ) ≤ 5 - initLogState.last_log_time ∧ |(8 : ℚ) - 5| < 5 ∧
    (log_data true 5 initLogState 5).records = initLogState.records ++ [5] ∧
    (log_data true 5 initLogState 5).last_log_time = 5 ∧
    log_data true 5 (log_data true 5 initLogState 5) 8 =
      log_data true 5 initLogState 5 ∧
    (log_data true 5 (log_data true 5 initLogState 5) 8).records.length =
      initLogState.records.length + 1 := by
  refine ⟨by norm_num [initLogState], by norm_num, ?_⟩
  exact log_data_rate_limit 5 5 8 initLogState (by norm_num [initLogState]) (by norm_num)

/-- C4 counterexample: the claim "each subsequent update applies the EMA" is
false.  Starting from the initial state, a first update with raw count 0
leaves `smoothed_count = 0`, so the second update (raw count 20, α = 0.3)
re-seeds to 20 instead of producing the EMA blend 0.3·20 + 0.7·0 = 6. -/
theorem smoother_second_update_not_ema :
    (update_smoothed_values (3/10)
        (update_smoothed_values (3/10) initSmoothed 0 (1/2)) 20 0).smoothed_count = 20 ∧
    (3/10 : ℚ) * 20 + (1 - 3/10) *
        (update_smoothed_values (3/10) initSmoothed 0 (1/2)).smoothed_count = 6 ∧
    (20 : ℚ) ≠ 6 := by
  refine ⟨?_, ?_, by norm_num⟩ <;>
    norm_num [update_smoothed_values, initSmoothed]

/-- C4 (amended): the very first update seeds the smoothed state exactly from
the raw inputs; every update whose stored `smoothed_count` is nonzero applies
the EMA `α·raw + (1-α)·prev` independently to count and density; with α = 0.3
a first call with raw count 10 yields exactly 10 and a second call with raw
count 20 yields exactly 13. -/
theorem smoother_seed_then_ema (alpha : ℚ) :
    (∀ c d : ℚ, update_smoothed_values alpha initSmoothed c d = ⟨c, d⟩) ∧
    (∀ (s : SmoothedState) (c d : ℚ), s.smoothed_count ≠ 0 →
      update_smoothed_values alpha s c d =
        ⟨alpha * c + (1 - alpha) * s.smoothed_count,
         alpha * d + (1 - alpha) * s.smoothed_density⟩) ∧
    ((update_smoothed_values (3/10) initSmoothed 10 0).smoothed_count = 10 ∧
     (update_smoothed_values (3/10)
        (update_smoothed_values (3/10) initSmoothed 10 0) 20 0).smoothed_count = 13) := by
  refine ⟨fun c d => by simp [update_smoothed_values, initSmoothed],
          fun s c d h => by simp [update_smoothed_values, h], ?_, ?_⟩ <;>
    norm_num [update_smoothed_values, initSmoothed]

theorem smoother_seed_then_ema_witness :
    update_smoothed_values (3/10) initSmoothed 10 0 = ⟨10, 0⟩ ∧
    ((10 : ℚ) ≠ 0 ∧
      update_smoothed_values (3/10) ⟨10, 0⟩ 20 0 = ⟨13, 0⟩) :=
  ⟨(smoother_seed_then_ema (3/10)).1 10 0,
   by norm_num,
   ((smoother_seed_then_ema (3/10)).2.1 ⟨10, 0⟩ 20 0 (by norm_num)).trans (by norm_num)⟩

/-- C5: whenever the stored `smoothed_count` is 0 at the start of an update —
not only on the literal first frame — the update overwrites both smoothed
fields with the raw inputs, discarding any accumulated `smoothed_density`;
the EMA blend is applied exactly when the prior `smoothed_count` is
nonzero. -/
theorem smoother_zero_sentinel_reseeds (alpha : ℚ) (s : SmoothedState) (c d : ℚ) :
    (s.smoothed_count = 0 → update_smoothed_values alpha s c d = ⟨c, d⟩) ∧
    (s.smoothed_count ≠ 0 → update_smoothed_values alpha s c d =
      ⟨alpha * c + (1 - alpha) * s.smoothed_count,
       alpha * d + (1 - alpha) * s.smoothed_density⟩) := by
  constructor <;> intro h <;> simp [update_smoothed_values, h]

theorem smoother_zero_sentinel_reseeds_witness :
    ((⟨0, 1/2⟩ : SmoothedState).smoothed_count = 0 ∧
      update_smoothed_values (3/10) ⟨0, 1/2⟩ 20 0 = ⟨20, 0⟩) ∧
    ((⟨10, 1/2⟩ : SmoothedState).smoothed_count ≠ 0 ∧
      update_smoothed_values (3/10) ⟨10, 1/2⟩ 20 0 = ⟨13, 7/20⟩) :=
  ⟨⟨rfl, (smoother_zero_sentinel_reseeds (3/10) ⟨0, 1/2⟩ 20 0).1 rfl⟩,
   ⟨by norm_num,
    ((smoother_zero_sentinel_reseeds (3/10) ⟨10, 1/2⟩ 20 0).2 (by norm_num)).trans
      (by norm_num)⟩⟩

/-- Bucket characterization of `classify_crowd_level` for ordered thresholds. -/
theorem classify_bucket_iff (t : Thresholds) (h1 : t.low < t.medium)
    (h2 : t.medium < t.high) (c : ℚ) :
    (classify_crowd_level t c = .low ↔ c < t.low) ∧
    (classify_crowd_level t c = .medium ↔ t.low ≤ c ∧ c < t.medium) ∧
    (classify_crowd_level t c = .high ↔ t.medium ≤ c ∧ c < t.high) ∧
    (classify_crowd_level t c = .critical ↔ t.high ≤ c) := by
  unfold classify_crowd_level
  split_ifs with ha hb hc <;>
    refine ⟨?_, ?_, ?_, ?_⟩ <;> simp_all <;>
    first
      | linarith
      | (intro h; linarith)

/-- `classify_crowd_level` is monotone in the count under the severity order
(this holds for any thresholds, ordered or not, because each guard of the
if-chain is downward closed). -/
theorem classify_monotone (t : Thresholds) (c1 c2 : ℚ) (hle : c1 ≤ c2) :
    levelRank (classify_crowd_level t c1) ≤ levelRank (classify_crowd_level t c2) := by
  unfold classify_crowd_level
  split_ifs <;> simp [levelRank] <;> linarith

/-- C6: for thresholds with low < medium < high, `classify_crowd_level` is
monotonically non-decreasing in the count under the severity order
low < medium < high < critical, the buckets are half-open as specified, and
with the default thresholds (20, 50, 100) the counts 10, 30, 60, 150 map to
low, medium, high, critical respectively. -/
theorem classify_monotone_and_buckets (t : Thresholds) (h1 : t.low < t.medium)
    (h2 : t.medium < t.high) :
    (∀ c1 c2 : ℚ, c1 ≤ c2 →
      levelRank (classify_crowd_level t c1) ≤ levelRank (classify_crowd_level t c2)) ∧
    (∀ c : ℚ,
      (classify_crowd_level t c = .low ↔ c < t.low) ∧
      (classify_crowd_level t c = .medium ↔ t.low ≤ c ∧ c < t.medium) ∧
      (classify_crowd_level t c = .high ↔ t.medium ≤ c ∧ c < t.high) ∧
      (classify_crowd_level t c = .critical ↔ t.high ≤ c)) ∧
    (classify_crowd_level defaultThresholds 10 = .low ∧
     classify_crowd_level defaultThresholds 30 = .medium ∧
     classify_crowd_level defaultThresholds 60 = .high ∧
     classify_crowd_level defaultThresholds 150 = .critical) := by
  refine ⟨fun c1 c2 hle => classify_monotone t c1 c2 hle,
          fun c => classify_bucket_iff t h1 h2 c, ?_, ?_, ?_, ?_⟩ <;>
    norm_num [classify_crowd_level, defaultThresholds]

theorem classify_monotone_and_buckets_witness :
    (defaultThresholds.low < defaultThresholds.medium ∧
     defaultThresholds.medium < defaultThresholds.high) ∧
    (classify_crowd_level defaultThresholds 10 = .low ∧
     classify_crowd_level defaultThresholds 30 = .medium ∧
     classify_crowd_level defaultThresholds 60 = .high ∧
     classify_crowd_level defaultThresholds 150 = .critical) ∧
    levelRank (classify_crowd_level defaultThresholds 30) ≤
      levelRank (classify_crowd_level defaultThresholds 60) :=
  ⟨⟨by norm_num [defaultThresholds], by norm_num [defaultThresholds]⟩,
   (classify_monotone_and_buckets defaultThresholds
      (by norm_num [defaultThresholds]) (by norm_num [defaultThresholds])).2.2,
   (classify_monotone_and_buckets defaultThresholds
      (by norm_num [defaultThresholds]) (by norm_num [defaultThresholds])).1 30 60
      (by norm_num)⟩

/-- With all anomaly flags false the anomaly check neither triggers nor
touches the state. -/
theorem check_anomaly_alerts_noAnomalies (cd : ℚ) (st : AlertState) (t : ℚ) :
    check_anomaly_alerts cd st noAnomalies t = (⟨false, .anomaly, .anomaly⟩, st) := by
  simp [check_anomaly_alerts, anyAnomaly, noAnomalies]

/-- Closed form of an evaluation cycle at a high/critical level with all
anomaly flags false: it is decided by that level's cooldown alone. -/
theorem check_alerts_noAnomalies_eq (cd : ℚ) (st : AlertState) (L : CrowdLevel)
    (t : ℚ) (hL : L = .high ∨ L = .critical) :
    check_alerts cd st L noAnomalies t =
      if check_alert_cooldown cd st (.lvl L) t then
        (⟨true, .lvl L, .threshold⟩,
         ⟨.lvl L, updKey st.last_alert_time (.lvl L) (Option.some t)⟩)
      else
        (⟨false, .none, .none⟩, ⟨.none, st.last_alert_time⟩) := by
  by_cases hc : check_alert_cooldown cd st (.lvl L) t = true <;>
    simp [check_alerts, check_threshold_alerts, check_anomaly_alerts, anyAnomaly,
      noAnomalies, hL, hc]

/-- C3: at a fixed level in {high, critical} with all anomaly flags false
throughout, starting with no prior alert of that level: the first evaluation
triggers and stamps that level's timer; a second evaluation strictly less
than the cooldown after the first does not trigger; a third evaluation at
least the cooldown after the first triggers again; and no other kind's
`last_alert_time` entry is touched (cooldown state is per level). -/
theorem alert_cooldown_lifecycle (cd t1 t2 t3 : ℚ) (st0 : AlertState)
    (L : CrowdLevel) (hL : L = .high ∨ L = .critical)
    (h0 : st0.last_alert_time (.lvl L) = Option.none)
    (h12 : t2 - t1 < cd) (h13 : cd ≤ t3 - t1) :
    (check_alerts cd st0 L noAnomalies t1).1.alert_triggered = true ∧
    (check_alerts cd (check_alerts cd st0 L noAnomalies t1).2
        L noAnomalies t2).1.alert_triggered = false ∧
    (check_alerts cd (check_alerts cd (check_alerts cd st0 L noAnomalies t1).2
        L noAnomalies t2).2 L noAnomalies t3).1.alert_triggered = true ∧
    (check_alerts cd st0 L noAnomalies t1).2.last_alert_time (.lvl L) =
      Option.some t1 ∧
    (∀ k, k ≠ AlertKind.lvl L →
      (check_alerts cd (check_alerts cd (check_alerts cd st0 L noAnomalies t1).2
          L noAnomalies t2).2 L noAnomalies t3).2.last_alert_time k =
        st0.last_alert_time k) := by
  have hc1 : check_alert_cooldown cd st0 (.lvl L) t1 = true := by
    simp [check_alert_cooldown, h0]
  have e1 : check_alerts cd st0 L noAnomalies t1 =
      (⟨true, .lvl L, .threshold⟩,
       ⟨.lvl L, updKey st0.last_alert_time (.lvl L) (Option.some t1)⟩) := by
    rw [check_alerts_noAnomalies_eq cd st0 L t1 hL, if_pos hc1]
  have hmap1 : (check_alerts cd st0 L noAnomalies t1).2.last_alert_time (.lvl L) =
      Option.some t1 := by
    rw [e1]; simp [updKey]
  have hc2 : ¬ (check_alert_cooldown cd (check_alerts cd st0 L noAnomalies t1).2
      (.lvl L) t2 = true) := by
    simp only [check_alert_cooldown, hmap1, decide_eq_true_eq]
    linarith
  have e2 : check_alerts cd (check_alerts cd st0 L noAnomalies t1).2 L noAnomalies t2 =
      (⟨false, .none, .none⟩,
       ⟨.none, (check_alerts cd st0 L noAnomalies t1).2.last_alert_time⟩) := by
    rw [check_alerts_noAnomalies_eq _ _ L t2 hL, if_neg hc2]
  have hc3 : check_alert_cooldown cd
      (check_alerts cd (check_alerts cd st0 L noAnomalies t1).2
        L noAnomalies t2).2 (.lvl L) t3 = true := by
    rw [e2]
    simp only [check_alert_cooldown, hmap1, decide_eq_true_eq]
    linarith
  have e3 : check_alerts cd (check_alerts cd (check_alerts cd st0 L noAnomalies t1).2
      L noAnomalies t2).2 L noAnomalies t3 =
      (⟨true, .lvl L, .threshold⟩,
       ⟨.lvl L, updKey (check_alerts cd (check_alerts cd st0 L noAnomalies t1).2
          L noAnomalies t2).2.last_alert_time (.lvl L) (Option.some t3)⟩) := by
    rw [check_alerts_noAnomalies_eq _ _ L t3 hL, if_pos hc3]
  refine ⟨by rw [e1], by rw [e2], by rw [e3], hmap1, ?_⟩
  intro k hk
  rw [e3]
  show updKey _ (.lvl L) (Option.some t3) k = _
  rw [updKey, if_neg hk, e2]
  show (check_alerts cd st0 L noAnomalies t1).2.last_alert_time k = _
  rw [e1]
  show updKey _ (.lvl L) (Option.some t1) k = _
  rw [updKey, if_neg hk]

theorem alert_cooldown_lifecycle_witness :
    (check_alerts 60 initAlertState .high noAnomalies 0).1.alert_triggered = true ∧
    (check_alerts 60 (check_alerts 60 initAlertState .high noAnomalies 0).2
        .high noAnomalies 30).1.alert_triggered = false ∧
    (check_alerts 60 (check_alerts 60 (check_alerts 60 initAlertState .high
        noAnomalies 0).2 .high noAnomalies 30).2 .high noAnomalies 60).1.alert_triggered =
      true ∧
    (check_alerts 60 (check_alerts 60 (check_alerts 60 initAlertState .high
        noAnomalies 0).2 .high noAnomalies 30).2 .high noAnomalies 60).2.last_alert_time
        (.lvl .critical) = initAlertState.last_alert_time (.lvl .critical) := by
  have H := alert_cooldown_lifecycle 60 0 30 60 initAlertState .high
    (Or.inl rfl) rfl (by norm_num) (by norm_num)
  exact ⟨H.1, H.2.1, H.2.2.1, H.2.2.2.2 (.lvl .critical) (by decide)⟩

/-- C2: in an evaluation cycle where both the threshold candidate (level in
{high, critical} with its cooldown elapsed) and the anomaly candidate (some
flag set with the anomaly cooldown elapsed) qualify, the returned alert has
`alert_type = 'threshold'` and `alert_triggered = true`. -/
theorem threshold_priority_over_anomaly (cd now : ℚ) (st : AlertState)
    (L : CrowdLevel) (a : Anomalies) (hL : L = .high ∨ L = .critical)
    (hcoolL : check_alert_cooldown cd st (.lvl L) now = true)
    (_hany : anyAnomaly a = true)
    (_hcoolA : check_alert_cooldown cd st .anomaly now = true) :
    (check_alerts cd st L a now).1.alert_type = .threshold ∧
    (check_alerts cd st L a now).1.alert_triggered = true := by
  have hth : check_threshold_alerts cd st L now =
      (⟨true, .lvl L, .threshold⟩,
       { st with last_alert_time :=
           updKey st.last_alert_time (.lvl L) (Option.some now) }) := by
    unfold check_threshold_alerts
    rw [if_pos hL, if_pos hcoolL]
  simp [check_alerts, hth]

theorem threshold_priority_over_anomaly_witness :
    check_alert_cooldown 60 initAlertState (.lvl .high) 100 = true ∧
    anyAnomaly countAnomalyOnly = true ∧
    check_alert_cooldown 60 initAlertState .anomaly 100 = true ∧
    (check_alerts 60 initAlertState .high countAnomalyOnly 100).1.alert_type =
      .threshold ∧
    (check_alerts 60 initAlertState .high countAnomalyOnly 100).1.alert_triggered =
      true := by
  refine ⟨by decide, by decide, by decide, ?_⟩
  exact threshold_priority_over_anomaly 60 100 initAlertState .high countAnomalyOnly
    (Or.inl rfl) (by decide) (by decide) (by decide)

/-- C1 counterexample: the claim that a suppressed anomaly's cooldown timer
is left unchanged is false.  From a fresh state, with crowd level `'high'`
and one anomaly flag set at time 100, both candidates qualify and the
threshold alert is reported — yet `last_alert_time['anomaly']` goes from
absent to 100, because `_check_anomaly_alerts` runs unconditionally and
stamps the timer whenever its candidate qualifies. -/
theorem suppressed_anomaly_timer_counterexample :
    (check_alerts 60 initAlertState .high countAnomalyOnly 100).1.alert_type =
      .threshold ∧
    (check_alerts 60 initAlertState .high countAnomalyOnly 100).1.alert_triggered =
      true ∧
    anyAnomaly countAnomalyOnly = true ∧
    check_alert_cooldown 60 initAlertState (.lvl .high) 100 = true ∧
    check_alert_cooldown 60 initAlertState .anomaly 100 = true ∧
    initAlertState.last_alert_time .anomaly = Option.none ∧
    (check_alerts 60 initAlertState .high countAnomalyOnly 100).2.last_alert_time
      .anomaly = Option.some 100 := by
  decide

/-- C1 (amended): when both candidates qualify, the threshold alert is the
one reported, but the anomaly kind's `last_alert_time` entry is stamped to
the current time in that same cycle (the suppressed anomaly's cooldown timer
IS reset), as is the triggering level's entry. -/
theorem suppressed_anomaly_stamps_cooldown (cd now : ℚ) (st : AlertState)
    (L : CrowdLevel) (a : Anomalies) (hL : L = .high ∨ L = .critical)
    (hcoolL : check_alert_cooldown cd st (.lvl L) now = true)
    (hany : anyAnomaly a = true)
    (hcoolA : check_alert_cooldown cd st .anomaly now = true) :
    (check_alerts cd st L a now).1.alert_type = .threshold ∧
    (check_alerts cd st L a now).2.last_alert_time .anomaly = Option.some now ∧
    (check_alerts cd st L a now).2.last_alert_time (.lvl L) = Option.some now := by
  have hth : check_threshold_alerts cd st L now =
      (⟨true, .lvl L, .threshold⟩,
       { st with last_alert_time :=
           updKey st.last_alert_time (.lvl L) (Option.some now) }) := by
    unfold check_threshold_alerts
    rw [if_pos hL, if_pos hcoolL]
  have hcoolA1 : check_alert_cooldown cd
      { st with last_alert_time :=
          updKey st.last_alert_time (.lvl L) (Option.some now) } .anomaly now = true := by
    simpa [check_alert_cooldown, updKey] using hcoolA
  have han : check_anomaly_alerts cd
      { st with last_alert_time :=
          updKey st.last_alert_time (.lvl L) (Option.some now) } a now =
      (⟨true, .anomaly, .anomaly⟩,
       { st with last_alert_time :=
           (updKey (updKey st.last_alert_time (.lvl L) (Option.some now))
             AlertKind.anomaly (Option.some now)) }) := by
    unfold check_anomaly_alerts
    rw [if_pos (by simp [hany, hcoolA1])]
  refine ⟨?_, ?_, ?_⟩ <;> simp [check_alerts, hth, han, updKey]

theorem suppressed_anomaly_stamps_cooldown_witness :
    (check_alerts 60 initAlertState .critical countAnomalyOnly 100).1.alert_type =
      .threshold ∧
    (check_alerts 60 initAlertState .critical countAnomalyOnly 100).2.last_alert_time
      .anomaly = Option.some 100 ∧
    (check_alerts 60 initAlertState .critical countAnomalyOnly 100).2.last_alert_time
      (.lvl .critical) = Option.some 100 :=
  suppressed_anomaly_stamps_cooldown 60 100 initAlertState .critical countAnomalyOnly
    (Or.inr rfl) (by decide) (by decide) (by decide)

/-- The minimum of a list of nonnegative reals is nonnegative. -/
theorem listMinR_nonneg (l : List ℝ) (h : ∀ x ∈ l, 0 ≤ x) : 0 ≤ listMinR l := by
  match l with
  | [] => exact le_refl 0
  | x :: xs =>
    simp only [listMinR]
    have hx : 0 ≤ x := h x (List.mem_cons_self x xs)
    have hxs : ∀ y ∈ xs, 0 ≤ y := fun y hy => h y (List.mem_cons_of_mem x hy)
    clear h
    induction xs generalizing x with
    | nil => exact hx
    | cons y ys ih =>
      simp only [List.foldl_cons]
      exact ih (min x y) (le_min hx (hxs y (List.mem_cons_self y ys)))
        (fun z hz => hxs z (List.mem_cons_of_mem y hz))

/-- `_calculate_bbox_coverage_density` always lies in `[0, 1]`. -/
theorem bbox_coverage_density_bounds (frame_width frame_height : ℕ)
    (boxes : List Box) :
    0 ≤ bbox_coverage_density frame_width frame_height boxes ∧
    bbox_coverage_density frame_width frame_height boxes ≤ 1 := by
  unfold bbox_coverage_density
  split_ifs with hb
  · norm_num
  · constructor
    · exact le_min (by positivity) (by norm_num)
    · exact min_le_right _ _

/-- `_calculate_spatial_distribution_density` always lies in `[0, 1]` (in the
low-count branch because the source is only reached with at most one box
there via the guard in `calculate_density_score`; the bound holds for any
list anyway since `len/100` exceeds 1 only from 101 boxes on, which the
`len < 2` guard excludes). -/
theorem spatial_distribution_density_bounds (frame_width frame_height : ℕ)
    (boxes : List Box) :
    0 ≤ spatial_distribution_density frame_width frame_height boxes ∧
    spatial_distribution_density frame_width frame_height boxes ≤ 1 := by
  unfold spatial_distribution_density
  split_ifs with hl
  · have h1 : (boxes.length : ℝ) ≤ 1 := by
      have : boxes.length ≤ 1 := Nat.lt_succ_iff.mp hl
      exact_mod_cast this
    constructor
    · positivity
    · nlinarith
  · have hmin_nonneg : 0 ≤ min
        (((List.range (boxes.map boxCenter).length).map (fun i =>
          listMinR (((List.range (boxes.map boxCenter).length).filter (fun j => j ≠ i)).map
            (fun j => euclidDist ((boxes.map boxCenter).getD i (0, 0))
              ((boxes.map boxCenter).getD j (0, 0)))))).sum /
          ((boxes.map boxCenter).length : ℝ) /
          Real.sqrt ((frame_width : ℝ) ^ 2 + (frame_height : ℝ) ^ 2)) 1 := by
      refine le_min ?_ (by norm_num)
      have hsum : 0 ≤ ((List.range (boxes.map boxCenter).length).map (fun i =>
          listMinR (((List.range (boxes.map boxCenter).length).filter (fun j => j ≠ i)).map
            (fun j => euclidDist ((boxes.map boxCenter).getD i (0, 0))
              ((boxes.map boxCenter).getD j (0, 0)))))).sum := by
        apply List.sum_nonneg
        intro x hx
        obtain ⟨i, _, rfl⟩ := List.mem_map.mp hx
        apply listMinR_nonneg
        intro y hy
        obtain ⟨j, _, rfl⟩ := List.mem_map.mp hy
        exact Real.sqrt_nonneg _
      positivity
    constructor
    · linarith [min_le_right
        ((((List.range (boxes.map boxCenter).length).map (fun i =>
          listMinR (((List.range (boxes.map boxCenter).length).filter (fun j => j ≠ i)).map
            (fun j => euclidDist ((boxes.map boxCenter).getD i (0, 0))
              ((boxes.map boxCenter).getD j (0, 0)))))).sum /
          ((boxes.map boxCenter).length : ℝ)) /
          Real.sqrt ((frame_width : ℝ) ^ 2 + (frame_height : ℝ) ^ 2)) (1 : ℝ)]
    · linarith

/-- C8: for every list of bounding boxes and either density method, the
density score lies in `[0, 1]`, and it is exactly 0 when the box list is
empty or a frame dimension is unknown. -/
theorem density_score_bounds (method : DensityMethod)
    (frame_width frame_height : ℕ) (boxes : List Box) :
    0 ≤ calculate_density_score method frame_width frame_height boxes ∧
    calculate_density_score method frame_width frame_height boxes ≤ 1 ∧
    ((boxes = [] ∨ frame_width = 0 ∨ frame_height = 0) →
      calculate_density_score method frame_width frame_height boxes = 0) := by
  unfold calculate_density_score
  split_ifs with hg
  · norm_num
  · refine ⟨?_, ?_, fun hc => absurd hc hg⟩ <;> cases method
    · show (0 : ℝ) ≤ ((bbox_coverage_density frame_width frame_height boxes : ℚ) : ℝ)
      exact_mod_cast (bbox_coverage_density_bounds frame_width frame_height boxes).1
    · exact (spatial_distribution_density_bounds frame_width frame_height boxes).1
    · show ((bbox_coverage_density frame_width frame_height boxes : ℚ) : ℝ) ≤ 1
      exact_mod_cast (bbox_coverage_density_bounds frame_width frame_height boxes).2
    · exact (spatial_distribution_density_bounds frame_width frame_height boxes).2

theorem density_score_bounds_witness :
    (([] : List Box) = [] ∨ (2 : ℕ) = 0 ∨ (2 : ℕ) = 0) ∧
    calculate_density_score .bbox_coverage 2 2 [] = 0 :=
  ⟨Or.inl rfl,
   (density_score_bounds .bbox_coverage 2 2 []).2.2 (Or.inl rfl)⟩

/-- Every box's (clamped) center cell is a valid index of the
`grid_h × grid_w` heatmap. -/
theorem cellOf_mem_gridCells (frame_width frame_height grid_w grid_h : ℕ)
    (hgw : 0 < grid_w) (hgh : 0 < grid_h) (b : Box) :
    cellOf frame_width frame_height grid_w grid_h b ∈ gridCells grid_w grid_h := by
  unfold cellOf gridCells
  simp only [Finset.mem_product, Finset.mem_Ico]
  omega

/-- The heatmap cell increments sum to the number of boxes: each box lands in
exactly one valid cell. -/
theorem heatRaw_sum_eq_length (frame_width frame_height grid_w grid_h : ℕ)
    (hgw : 0 < grid_w) (hgh : 0 < grid_h) (boxes : List Box) :
    ∑ rc ∈ gridCells grid_w grid_h,
      heatRaw frame_width frame_height grid_w grid_h boxes rc = boxes.length := by
  induction boxes with
  | nil => simp [heatRaw]
  | cons b bs ih =>
    have hmem := cellOf_mem_gridCells frame_width frame_height grid_w grid_h hgw hgh b
    simp only [heatRaw, List.map_cons, List.count_cons, beq_iff_eq] at ih ⊢
    rw [Finset.sum_add_distrib, ih, Finset.sum_ite_eq (gridCells grid_w grid_h)
      (cellOf frame_width frame_height grid_w grid_h b) (fun _ => 1), if_pos hmem]
    simp

/-- With at least one box, the grid maximum is at least 1. -/
theorem one_le_maxRaw (frame_width frame_height grid_w grid_h : ℕ)
    (hgw : 0 < grid_w) (hgh : 0 < grid_h) (boxes : List Box) (hne : boxes ≠ []) :
    1 ≤ maxRaw frame_width frame_height grid_w grid_h boxes := by
  obtain ⟨b, hb⟩ := List.exists_mem_of_ne_nil boxes hne
  have hcount : 1 ≤ heatRaw frame_width frame_height grid_w grid_h boxes
      (cellOf frame_width frame_height grid_w grid_h b) := by
    unfold heatRaw
    exact List.count_pos_iff.mpr (List.mem_map_of_mem _ hb)
  exact le_trans hcount (Finset.le_sup
    (cellOf_mem_gridCells frame_width frame_height grid_w grid_h hgw hgh b))

/-- C9: with known positive frame dimensions and a positive grid, the
pre-normalization cell increments sum to exactly the number of input boxes;
after normalization the maximum cell value is exactly 1 whenever boxes are
present (every cell is ≤ 1 and some grid cell equals 1), and the grid is
all-zero when the box list is empty. -/
theorem heatmap_sum_and_max (frame_width frame_height grid_w grid_h : ℕ)
    (boxes : List Box) (hw : frame_width ≠ 0) (hh : frame_height ≠ 0)
    (hgw : 0 < grid_w) (hgh : 0 < grid_h) :
    (∑ rc ∈ gridCells grid_w grid_h,
      heatRaw frame_width frame_height grid_w grid_h boxes rc = boxes.length) ∧
    (boxes ≠ [] →
      (∃ rc ∈ gridCells grid_w grid_h,
        generate_density_heatmap frame_width frame_height grid_w grid_h boxes rc = 1) ∧
      (∀ rc, generate_density_heatmap frame_width frame_height grid_w grid_h boxes rc ≤ 1)) ∧
    (boxes = [] →
      ∀ rc, generate_density_heatmap frame_width frame_height grid_w grid_h boxes rc = 0) := by
  refine ⟨heatRaw_sum_eq_length frame_width frame_height grid_w grid_h hgw hgh boxes,
    fun hne => ?_, fun he => ?_⟩
  · have hmax := one_le_maxRaw frame_width frame_height grid_w grid_h hgw hgh boxes hne
    have hgen : generate_density_heatmap frame_width frame_height grid_w grid_h boxes =
        fun rc => (heatRaw frame_width frame_height grid_w grid_h boxes rc : ℚ) /
          (maxRaw frame_width frame_height grid_w grid_h boxes : ℚ) := by
      unfold generate_density_heatmap
      rw [if_neg (by simp [hw, hh]), if_neg hne]
      funext rc
      show (if 0 < maxRaw frame_width frame_height grid_w grid_h boxes
          then (heatRaw frame_width frame_height grid_w grid_h boxes rc : ℚ) /
            (maxRaw frame_width frame_height grid_w grid_h boxes : ℚ)
          else (heatRaw frame_width frame_height grid_w grid_h boxes rc : ℚ)) =
        (heatRaw frame_width frame_height grid_w grid_h boxes rc : ℚ) /
          (maxRaw frame_width frame_height grid_w grid_h boxes : ℚ)
      exact if_pos (lt_of_lt_of_le Nat.zero_lt_one hmax)
    have hmaxQ : (0 : ℚ) < (maxRaw frame_width frame_height grid_w grid_h boxes : ℚ) := by
      exact_mod_cast hmax
    constructor
    · obtain ⟨rc0, hrc0, hsup⟩ := Finset.exists_mem_eq_sup (gridCells grid_w grid_h)
        ⟨(0, 0), by simp [gridCells, Finset.mem_product, Finset.mem_Ico]; omega⟩
        (heatRaw frame_width frame_height grid_w grid_h boxes)
      refine ⟨rc0, hrc0, ?_⟩
      rw [hgen]
      show (heatRaw frame_width frame_height grid_w grid_h boxes rc0 : ℚ) /
        (maxRaw frame_width frame_height grid_w grid_h boxes : ℚ) = 1
      have hm2 : maxRaw frame_width frame_height grid_w grid_h boxes =
          heatRaw frame_width frame_height grid_w grid_h boxes rc0 := hsup
      have hne0 : (heatRaw frame_width frame_height grid_w grid_h boxes rc0 : ℚ) ≠ 0 := by
        have h1 : 1 ≤ heatRaw frame_width frame_height grid_w grid_h boxes rc0 :=
          hm2 ▸ hmax
        exact_mod_cast Nat.one_le_iff_ne_zero.mp h1
      rw [hm2]
      exact div_self hne0
    · intro rc
      rw [hgen]
      show (heatRaw frame_width frame_height grid_w grid_h boxes rc : ℚ) /
        (maxRaw frame_width frame_height grid_w grid_h boxes : ℚ) ≤ 1
      rw [div_le_one hmaxQ]
      by_cases hrc : rc ∈ gridCells grid_w grid_h
      · exact_mod_cast Finset.le_sup hrc
      · have : heatRaw frame_width frame_height grid_w grid_h boxes rc = 0 := by
          unfold heatRaw
          refine List.count_eq_zero.mpr fun hm => hrc ?_
          obtain ⟨b, _, rfl⟩ := List.mem_map.mp hm
          exact cellOf_mem_gridCells frame_width frame_height grid_w grid_h hgw hgh b
        rw [this]
        exact_mod_cast Nat.zero_le _
  · subst he
    intro rc
    unfold generate_density_heatmap
    rw [if_neg (by simp [hw, hh])]
    simp

theorem heatmap_sum_and_max_witness :
    (2 : ℕ) ≠ 0 ∧ (0 : ℕ) < 2 ∧
    (∑ rc ∈ gridCells 2 2,
      heatRaw 2 2 2 2 [⟨0, 0, 1, 1⟩] rc = [(⟨0, 0, 1, 1⟩ : Box)].length) ∧
    generate_density_heatmap 2 2 2 2 [⟨0, 0, 1, 1⟩] (0, 0) ≤ 1 :=
  ⟨by decide, by decide,
   (heatmap_sum_and_max 2 2 2 2 [⟨0, 0, 1, 1⟩] (by decide) (by decide)
      (by decide) (by decide)).1,
   ((heatmap_sum_and_max 2 2 2 2 [⟨0, 0, 1, 1⟩] (by decide) (by decide)
      (by decide) (by decide)).2.1 (by simp)).2 (0, 0)⟩
